import Mathlib

/-!
Shallow embedding of the cli-pomodoro sources (src/storage.py, src/todo.py,
src/timer.py) and proofs about the claims of the specification.

Conventions of the embedding:
* Python `int` is `Int` (unbounded), Python `str` is `String`,
  Python `None`-able values are `Option`.
* Mutation of dataclass fields becomes functional record update; methods that
  mutate return the updated record.
* `datetime.now().isoformat()` produces an opaque string; wherever the source
  calls it, the embedding takes the string as an explicit parameter (or uses a
  fixed placeholder where the value is irrelevant to every claim).
* `uuid.uuid4()[:8]` generates an opaque fresh id; the embedding takes the id
  as an explicit parameter.
* Python exceptions become `Except PyError`; a raised exception that the
  source does not catch is an `Except.error` escaping the function.
-/

namespace Pomodoro

/-- Errors raised by the Python runtime that matter to `Storage.load_todos`:
`cls(**data)` raises `TypeError` for a non-dict argument, an unexpected
keyword, or a missing required argument; `KeyError` is the other class named
in the `except` clause of `load_todos`. `jsonDecodeError` stands for
`json.JSONDecodeError`. -/
inductive PyError where
  | typeError : PyError
  | keyError : PyError
  deriving Repr, DecidableEq

/-- JSON values as produced by Python's `json.load` / consumed by `json.dump`:
`null`, booleans, (integer) numbers, strings, arrays, and objects with
string keys. -/
inductive Json where
  | null : Json
  | bool : Bool → Json
  | num : Int → Json
  | str : String → Json
  | arr : List Json → Json
  | obj : List (String × Json) → Json

/-- Todo item data model (src/storage.py, `@dataclass class Todo`). -/
structure Todo where
  id : String
  title : String
  completed : Bool
  created_at : String
  completed_at : Option String
  timer_minutes : Option Int
  deriving Repr, DecidableEq

/-- Embedding of `Todo.create`: new todo with auto-generated id (`uuid4[:8]`, passed here
as the parameter `id`) and `created_at = datetime.now().isoformat()` (passed
as `created_at`); `completed = False`, `completed_at = None`. -/
def Todo.create (id : String) (title : String) (timer_minutes : Option Int)
    (created_at : String) : Todo :=
  { id := id, title := title, completed := false, created_at := created_at,
    completed_at := none, timer_minutes := timer_minutes }

/-- Embedding of `Todo.mark_complete`: sets `completed = True` and
`completed_at = datetime.now().isoformat()` (passed as `now`). -/
def Todo.mark_complete (t : Todo) (now : String) : Todo :=
  { t with completed := true, completed_at := some now }

/-- Encoding of an optional string field by Python's `json.dump`
(`None` becomes `null`). -/
def optStrToJson : Option String → Json
  | none => Json.null
  | some s => Json.str s

/-- Encoding of an optional integer field by Python's `json.dump`. -/
def optIntToJson : Option Int → Json
  | none => Json.null
  | some n => Json.num n

/-- Embedding of `Todo.to_dict`: `dataclasses.asdict`, a dict with the six fields in
declaration order. -/
def Todo.to_dict (t : Todo) : Json :=
  Json.obj [("id", Json.str t.id),
            ("title", Json.str t.title),
            ("completed", Json.bool t.completed),
            ("created_at", Json.str t.created_at),
            ("completed_at", optStrToJson t.completed_at),
            ("timer_minutes", optIntToJson t.timer_minutes)]

/-- The keyword names `cls(**data)` accepts: exactly the dataclass fields. -/
def todoFields : List String := ["id", "title", "completed", "created_at",
  "completed_at", "timer_minutes"]

/-- First value bound to key `k` in a JSON object / Python dict. -/
def lookupKey (kvs : List (String × Json)) (k : String) : Option Json :=
  (kvs.find? (fun kv => kv.1 == k)).map (fun kv => kv.2)

/-- Decoding of a JSON value into a string field. -/
def jsonAsStr : Json → Option String
  | Json.str s => some s
  | _ => none

/-- Decoding of a JSON value into a boolean field. -/
def jsonAsBool : Json → Option Bool
  | Json.bool b => some b
  | _ => none

/-- Decoding of a JSON value into a nullable string field. -/
def jsonAsOptStr : Json → Option (Option String)
  | Json.null => some none
  | Json.str s => some (some s)
  | _ => none

/-- Decoding of a JSON value into a nullable integer field. -/
def jsonAsOptInt : Json → Option (Option Int)
  | Json.null => some none
  | Json.num n => some (some n)
  | _ => none

/-- Embedding of `Todo.from_dict(data) = cls(**data)`. Python raises `TypeError` (never
`KeyError`) when `data` is not a dict, when a key is not a dataclass field
name, or when required `id` / `title` are missing; the defaulted fields fall
back to their dataclass defaults (`completed = False`,
`completed_at = None`, `timer_minutes = None`; the `created_at` default is
`datetime.now().isoformat()`, modelled as the placeholder string `"now"` —
no claim exercises it). Python dataclasses do not validate field value
types, so the embedding covers the well-typed payloads, which include every
payload produced by `Todo.to_dict` and every payload a claim mentions. -/
def Todo.from_dict : Json → Except PyError Todo
  | Json.obj kvs =>
    if kvs.all (fun kv => todoFields.contains kv.1) then
      match lookupKey kvs "id", lookupKey kvs "title" with
      | some jid, some jtitle =>
        match jsonAsStr jid, jsonAsStr jtitle,
              (lookupKey kvs "completed").map jsonAsBool,
              (lookupKey kvs "created_at").map jsonAsStr,
              (lookupKey kvs "completed_at").map jsonAsOptStr,
              (lookupKey kvs "timer_minutes").map jsonAsOptInt with
        | some i, some ttl, oc, oca, ocat, otm =>
          match oc.getD (some false), oca.getD (some "now"),
                ocat.getD (some none), otm.getD (some none) with
          | some c, some ca, some cat, some tm =>
            Except.ok { id := i, title := ttl, completed := c,
                        created_at := ca, completed_at := cat,
                        timer_minutes := tm }
          | _, _, _, _ => Except.error PyError.typeError
        | _, _, _, _, _, _ => Except.error PyError.typeError
      | _, _ => Except.error PyError.typeError
    else Except.error PyError.typeError
  | _ => Except.error PyError.typeError

/-- State of the persisted `todos.json` file as `load_todos` observes it:
missing, present with content that `json.load` rejects
(`json.JSONDecodeError`), or present with a decoded JSON value. -/
inductive FileState where
  | missing : FileState
  | invalidJson : FileState
  | content : Json → FileState

/-- Python `for item in data`: a list iterates its elements, a string its
one-character substrings, a dict its keys; `null` / booleans / numbers are
not iterable and raise `TypeError`. -/
def iterItems : Json → Except PyError (List Json)
  | Json.arr xs => Except.ok xs
  | Json.str s => Except.ok (s.toList.map (fun c => Json.str (String.mk [c])))
  | Json.obj kvs => Except.ok (kvs.map (fun kv => Json.str kv.1))
  | _ => Except.error PyError.typeError

/-- The list comprehension `[Todo.from_dict(item) for item in data]`:
the first exception raised by `from_dict` aborts the comprehension. -/
def fromDictAll : List Json → Except PyError (List Todo)
  | [] => Except.ok []
  | j :: rest =>
    match Todo.from_dict j with
    | Except.error e => Except.error e
    | Except.ok t =>
      match fromDictAll rest with
      | Except.error e => Except.error e
      | Except.ok ts => Except.ok (t :: ts)

namespace Storage

/-- Embedding of `Storage.load_todos`: missing file yields `[]`; otherwise parse and build
the todo list, with `except (json.JSONDecodeError, KeyError): return []` —
any other exception (in particular the `TypeError` raised by `cls(**data)`)
escapes to the caller. -/
def load_todos : FileState → Except PyError (List Todo)
  | FileState.missing => Except.ok []
  | FileState.invalidJson => Except.ok []
  | FileState.content j =>
    match (match iterItems j with
           | Except.error e => Except.error e
           | Except.ok items => fromDictAll items) with
    | Except.ok ts => Except.ok ts
    | Except.error PyError.keyError => Except.ok []
    | Except.error e => Except.error e

/-- Embedding of `Storage.save_todos`: writes `json.dump([todo.to_dict() for todo in
todos])`, i.e. the file now holds the JSON array of the encoded todos. -/
def save_todos (todos : List Todo) : FileState :=
  FileState.content (Json.arr (todos.map Todo.to_dict))

end Storage

/-- Embedding of `TodoManager` (src/todo.py): the in-memory todo list plus the persisted
file it writes through to. `stored` is the state of `todos.json` after the
last `self.save()`. -/
structure TodoManager where
  todos : List Todo
  stored : FileState

/-- Embedding of `TodoManager.save`: `self.storage.save_todos(self.todos)`. -/
def TodoManager.save (m : TodoManager) : TodoManager :=
  { m with stored := Storage.save_todos m.todos }

/-- Python `s.startswith(p)`: `p` is a leading substring of `s`. (Embedded
as the character-list prefix test, which agrees with `String.startsWith`
but evaluates by structural recursion.) -/
def pyStartswith (s p : String) : Bool :=
  p.data.isPrefixOf s.data

/-- The id test used by `complete` / `delete` / `get`:
`todo.id == todo_id or todo.id.startswith(todo_id)`. -/
def todoMatches (t : Todo) (todo_id : String) : Bool :=
  t.id == todo_id || pyStartswith t.id todo_id

/-- The loop body of `TodoManager.complete`: walk the list in order, mark the
first matching todo complete (in place), and return the updated list and the
updated todo; `none` when no todo matches. -/
def completeList : List Todo → String → String → Option (List Todo × Todo)
  | [], _, _ => none
  | t :: rest, todo_id, now =>
    if todoMatches t todo_id then
      let t' := t.mark_complete now
      some (t' :: rest, t')
    else
      (completeList rest todo_id now).map (fun r => (t :: r.1, r.2))

/-- Embedding of `TodoManager.complete`: first exact-or-prefix match is marked complete,
the collection is saved, and the updated todo returned; `None` if no match
(and then nothing is saved). `now` is `datetime.now().isoformat()`. -/
def TodoManager.complete (m : TodoManager) (todo_id : String) (now : String) :
    TodoManager × Option Todo :=
  match completeList m.todos todo_id now with
  | some r => (TodoManager.save { m with todos := r.1 }, some r.2)
  | none => (m, none)

/-- The loop body of `TodoManager.delete`: remove the first matching todo. -/
def deleteList : List Todo → String → Option (List Todo)
  | [], _ => none
  | t :: rest, todo_id =>
    if todoMatches t todo_id then some rest
    else (deleteList rest todo_id).map (fun r => t :: r)

/-- Embedding of `TodoManager.delete`: removes the first exact-or-prefix match and saves;
`False` if no match. -/
def TodoManager.delete (m : TodoManager) (todo_id : String) :
    TodoManager × Bool :=
  match deleteList m.todos todo_id with
  | some ts => (TodoManager.save { m with todos := ts }, true)
  | none => (m, false)

/-- Embedding of `TodoManager.get`: first exact-or-prefix match, no mutation. -/
def TodoManager.get (m : TodoManager) (todo_id : String) : Option Todo :=
  m.todos.find? (fun t => todoMatches t todo_id)

/-- Embedding of `TodoManager.add`: append a freshly created todo and save. -/
def TodoManager.add (m : TodoManager) (title : String)
    (timer_minutes : Option Int) (id created_at : String) :
    TodoManager × Todo :=
  let todo := Todo.create id title timer_minutes created_at
  (TodoManager.save { m with todos := m.todos ++ [todo] }, todo)

/-- Embedding of `TodoManager.list_pending`: the todos with `completed = False`. -/
def TodoManager.list_pending (m : TodoManager) : List Todo :=
  m.todos.filter (fun t => !t.completed)

/-- Embedding of `TodoManager.list_completed`: the todos with `completed = True`. -/
def TodoManager.list_completed (m : TodoManager) : List Todo :=
  m.todos.filter (fun t => t.completed)

/-- Embedding of `TodoManager.clear_completed`: keep the not-completed todos, save, and
return how many were removed (`original_count - len(self.todos)`). -/
def TodoManager.clear_completed (m : TodoManager) : TodoManager × Nat :=
  let original_count := m.todos.length
  let remaining := m.todos.filter (fun t => !t.completed)
  (TodoManager.save { m with todos := remaining },
   original_count - remaining.length)

/-- Timer data model (src/storage.py, `@dataclass class Timer`). -/
structure Timer where
  id : String
  title : String
  total_seconds : Int
  remaining_seconds : Int
  started_at : String
  todo_id : Option String
  paused : Bool
  deriving Repr, DecidableEq

/-- Embedding of `Timer.create`: `total_seconds = minutes * 60`, `remaining_seconds`
equal to total, not paused. The auto-generated id and `started_at` timestamp
are passed as parameters. -/
def Timer.create (id title : String) (minutes : Int) (todo_id : Option String)
    (started_at : String) : Timer :=
  { id := id, title := title, total_seconds := minutes * 60,
    remaining_seconds := minutes * 60, started_at := started_at,
    todo_id := todo_id, paused := false }

/-- Embedding of `Timer.is_complete`: `remaining_seconds <= 0`. -/
def Timer.is_complete (t : Timer) : Bool :=
  decide (t.remaining_seconds ≤ 0)

/-- Embedding of `Timer.tick`: decrement `remaining_seconds` by one when it is positive
and the timer is not paused, else leave the timer unchanged; the returned
boolean is `remaining_seconds > 0` after the update (the source discards it
at every call site). -/
def Timer.tick (t : Timer) : Timer × Bool :=
  let t' := if 0 < t.remaining_seconds ∧ t.paused = false
            then { t with remaining_seconds := t.remaining_seconds - 1 }
            else t
  (t', decide (0 < t'.remaining_seconds))

/-- The operations of the manager that mutate a given `Timer`'s fields:
a countdown tick (`Timer.tick` from `_run_timer`), `pause_timer`
(`timer.paused = True`) and `resume_timer` (`timer.paused = False`). No
other operation of `TimerManager` writes to an existing timer. -/
inductive TimerOp where
  | tick : TimerOp
  | pause : TimerOp
  | unpause : TimerOp

/-- Effect of one mutating manager operation on one timer. -/
def applyOp (t : Timer) : TimerOp → Timer
  | TimerOp.tick => (t.tick).1
  | TimerOp.pause => { t with paused := true }
  | TimerOp.unpause => { t with paused := false }

/-- Effect of a sequence of mutating manager operations on one timer. -/
def applyOps (t : Timer) (ops : List TimerOp) : Timer :=
  ops.foldl applyOp t

/-- The loop of `TimerManager._run_timer`, run without interference from
other flows: `while timer.remaining_seconds > 0 and not timer.paused:
await asyncio.sleep(1); timer.tick()`. -/
def run_loop (t : Timer) : Timer :=
  if h : 0 < t.remaining_seconds ∧ t.paused = false then
    run_loop (t.tick).1
  else t
termination_by t.remaining_seconds.toNat
decreasing_by
  simp only [Timer.tick, if_pos h]
  omega

/-- Embedding of `TimerManager._run_timer` with the `on_complete` callback registered:
runs the countdown loop, then `if timer.is_complete and self._on_complete:
self._on_complete(timer)`. Returns the final timer state and the number of
`on_complete` invocations this run performs. -/
def run_timer (t : Timer) : Timer × Nat :=
  let t' := run_loop t
  (t', if t'.is_complete then 1 else 0)

/-- First value bound to key `k` in a Python dict (insertion-ordered). -/
def dictLookup {α : Type} (d : List (String × α)) (k : String) : Option α :=
  (d.find? (fun kv => kv.1 == k)).map (fun kv => kv.2)

/-- Python `d[k] = v` on an insertion-ordered dict: update in place if the
key exists, else append. -/
def dictInsert {α : Type} (d : List (String × α)) (k : String) (v : α) :
    List (String × α) :=
  if d.any (fun kv => kv.1 == k) then
    d.map (fun kv => if kv.1 == k then (k, v) else kv)
  else d ++ [(k, v)]

/-- Embedding of `TimerManager` (src/timer.py). `timers` is the insertion-ordered dict of
Timer objects keyed by timer id; `tasks` maps a timer id to the pid of the
`asyncio.Task` stored under that key; `procs` is the log of every countdown
task ever created — `(pid, id of the timer it runs, done flag)` — which
keeps track of tasks that remain alive after their `tasks` entry was
overwritten; `nextPid` is the next fresh pid. -/
structure TimerManager where
  timers : List (String × Timer)
  tasks : List (String × Nat)
  procs : List (Nat × String × Bool)
  nextPid : Nat
  running : Bool
  deriving DecidableEq

/-- Embedding of `task.done()` for the task with the given pid. -/
def procDone (procs : List (Nat × String × Bool)) (pid : Nat) : Bool :=
  ((procs.find? (fun p => p.1 == pid)).map (fun p => p.2.2)).getD true

/-- The id test of `get_timer` / `remove_timer`:
`tid == timer_id or tid.startswith(timer_id)`. -/
def timerKeyMatches (tid timer_id : String) : Bool :=
  tid == timer_id || pyStartswith tid timer_id

/-- Embedding of `TimerManager.get_timer`: first entry of the timers dict whose key is
`timer_id` or has `timer_id` as a prefix. -/
def TimerManager.get_timer (m : TimerManager) (timer_id : String) :
    Option Timer :=
  (m.timers.find? (fun kv => timerKeyMatches kv.1 timer_id)).map
    (fun kv => kv.2)

/-- Embedding of `asyncio.create_task(self._run_timer(timer))` followed by
`self.tasks[timer.id] = task`: a new not-yet-done countdown task for
`timer`; any previous task registered under `timer.id` keeps running but
its dict entry is overwritten. -/
def TimerManager.spawnTask (m : TimerManager) (timer : Timer) : TimerManager :=
  { m with tasks := dictInsert m.tasks timer.id m.nextPid,
           procs := m.procs ++ [(m.nextPid, timer.id, false)],
           nextPid := m.nextPid + 1 }

/-- Embedding of `TimerManager.start_timer`: resolve `timer_id` by exact-or-prefix match;
return `False` when nothing matches, or when
`timer_id in self.tasks and not self.tasks[timer_id].done()` — note that
this guard looks the raw argument up in `tasks`, whose keys are full timer
ids; otherwise spawn a countdown task. -/
def TimerManager.start_timer (m : TimerManager) (timer_id : String) :
    TimerManager × Bool :=
  match m.get_timer timer_id with
  | none => (m, false)
  | some timer =>
    match dictLookup m.tasks timer_id with
    | some pid =>
      if procDone m.procs pid = false then (m, false)
      else (m.spawnTask timer, true)
    | none => (m.spawnTask timer, true)

/-- In-place mutation of the paused flag of the Timer object stored under
key `tid` (`add_timer` stores every Timer under its own id, so mutating the
object found by `get_timer` updates the entry keyed by `timer.id`). -/
def setPausedInTimers (timers : List (String × Timer)) (tid : String)
    (b : Bool) : List (String × Timer) :=
  timers.map (fun kv => if kv.1 == tid then (kv.1, { kv.2 with paused := b })
                        else kv)

/-- Embedding of `TimerManager.pause_timer`: `timer.paused = True` on the matched timer. -/
def TimerManager.pause_timer (m : TimerManager) (timer_id : String) :
    TimerManager × Bool :=
  match m.get_timer timer_id with
  | some timer =>
    ({ m with timers := setPausedInTimers m.timers timer.id true }, true)
  | none => (m, false)

/-- Embedding of `TimerManager.resume_timer`: `if timer and timer.paused:` clear the flag
and call `self.start_timer(timer.id)` (with the full id), returning `True`;
in every other case — no match, or a matched timer that is not paused —
return `False` without touching anything. -/
def TimerManager.resume_timer (m : TimerManager) (timer_id : String) :
    TimerManager × Bool :=
  match m.get_timer timer_id with
  | some timer =>
    if timer.paused then
      let m1 : TimerManager :=
        { m with timers := setPausedInTimers m.timers timer.id false }
      ((m1.start_timer timer.id).1, true)
    else (m, false)
  | none => (m, false)

/-- Embedding of `TimerManager.start_all`: `self._running = True`, then for each timer id
(in dict order) call `start_timer` unless a not-yet-done task is registered
under that id. -/
def TimerManager.start_all (m : TimerManager) : TimerManager :=
  (m.timers.map Prod.fst).foldl
    (fun acc tid =>
      match dictLookup acc.tasks tid with
      | none => (acc.start_timer tid).1
      | some pid =>
        if procDone acc.procs pid then (acc.start_timer tid).1 else acc)
    { m with running := true }

/-- Embedding of `TimerManager.get_active_timers`: the not-completed timers, dict order. -/
def TimerManager.get_active_timers (m : TimerManager) : List Timer :=
  (m.timers.map (fun kv => kv.2)).filter (fun t => !t.is_complete)

/-- Number of live (created and not yet done) countdown tasks that run the
timer with id `tid`. -/
def liveTasksFor (m : TimerManager) (tid : String) : Nat :=
  (m.procs.filter (fun p => p.2.1 == tid && !p.2.2)).length

/-- A countdown task for timer id `tid` is registered in the tasks dict and
not yet done. -/
def activeTask (m : TimerManager) (tid : String) : Prop :=
  ∃ pid, dictLookup m.tasks tid = some pid ∧ procDone m.procs pid = false

/-! Test fixtures: concrete values used to instantiate the theorems below. -/

/-- A concrete todo with the given id and completion flag. -/
def demoTodo (i : String) (c : Bool) : Todo :=
  { id := i, title := "t", completed := c, created_at := "2024-01-01",
    completed_at := none, timer_minutes := none }

/-- Five todos, three of them completed. -/
def demoTodos : List Todo :=
  [demoTodo "aaaa1111" true, demoTodo "bbbb2222" false,
   demoTodo "cccc3333" true, demoTodo "dddd4444" false,
   demoTodo "eeee5555" true]

/-- A concrete 25-minute timer. -/
def demoTimer : Timer := Timer.create "abcd1234" "Focus" 25 none "2024-01-01"

/-- A JSON file content that decodes fine but is not a serialized todo
collection: the object misses the required `title` field, so
`Todo(**data)` raises `TypeError`. -/
def corruptContent : FileState :=
  FileState.content (Json.arr [Json.obj [("id", Json.str "a")]])

/-- A manager holding the timer `"abcd1234"` mid-countdown, with a live
(not yet done) countdown task (pid 0) registered for it. -/
def demoManager : TimerManager :=
  { timers := [("abcd1234", demoTimer)],
    tasks := [("abcd1234", 0)],
    procs := [(0, "abcd1234", false)],
    nextPid := 1,
    running := true }

/-- The final state of a completed one-minute timer. -/
def completedTimer : Timer :=
  { id := "f1f1f1f1", title := "Focus", total_seconds := 60,
    remaining_seconds := 0, started_at := "2024-01-01", todo_id := none,
    paused := false }

/-- A manager holding the completed timer, whose countdown task (pid 0)
has finished. -/
def doneManager : TimerManager :=
  { timers := [("f1f1f1f1", completedTimer)],
    tasks := [("f1f1f1f1", 0)],
    procs := [(0, "f1f1f1f1", true)],
    nextPid := 1,
    running := true }

/-- The demo timer, paused. -/
def pausedTimer : Timer := { demoTimer with paused := true }

/-- A manager holding the paused timer, with no countdown task. -/
def pausedManager : TimerManager :=
  { timers := [("abcd1234", pausedTimer)],
    tasks := [],
    procs := [],
    nextPid := 0,
    running := true }

/-- A manager holding the paused timer together with a live (not yet done)
countdown task (pid 0) for it. -/
def pausedBusyManager : TimerManager :=
  { timers := [("abcd1234", pausedTimer)],
    tasks := [("abcd1234", 0)],
    procs := [(0, "abcd1234", false)],
    nextPid := 1,
    running := true }

/-! Helper lemmas. -/

/-- Every string has the empty string as a prefix (Python
`s.startswith("")` is `True`). -/
theorem pyStartswith_empty (s : String) : pyStartswith s "" = true := by
  have h : "".data = ([] : List Char) := rfl
  simp [pyStartswith, h, List.isPrefixOf]

/-- Decoding inverts encoding on every todo. -/
theorem from_dict_to_dict (t : Todo) :
    Todo.from_dict (t.to_dict) = Except.ok t := by
  cases t with
  | mk i ttl c ca cat tm =>
    cases cat <;> cases tm <;>
      simp [Todo.to_dict, Todo.from_dict, todoFields, lookupKey, optStrToJson,
        optIntToJson, jsonAsStr, jsonAsBool, jsonAsOptStr, jsonAsOptInt]

/-- The comprehension over encoded todos rebuilds the original list. -/
theorem fromDictAll_map_to_dict (ts : List Todo) :
    fromDictAll (ts.map Todo.to_dict) = Except.ok ts := by
  induction ts with
  | nil => rfl
  | cons t ts ih => simp [fromDictAll, from_dict_to_dict, ih]

/-- The completed and the pending todos of a list partition its length. -/
theorem filter_completed_length (l : List Todo) :
    (l.filter (fun t => t.completed)).length +
      (l.filter (fun t => !t.completed)).length = l.length := by
  induction l with
  | nil => simp
  | cons a l ih => by_cases h : a.completed <;> simp [h] <;> omega

/-- One mutating operation never increases `remaining_seconds`, keeps it
non-negative, and never changes `total_seconds`. -/
theorem applyOp_remaining (t : Timer) (op : TimerOp) :
    (applyOp t op).remaining_seconds ≤ t.remaining_seconds
    ∧ (0 ≤ t.remaining_seconds → 0 ≤ (applyOp t op).remaining_seconds)
    ∧ (applyOp t op).total_seconds = t.total_seconds := by
  cases op with
  | tick =>
    by_cases hc : 0 < t.remaining_seconds ∧ t.paused = false
    · refine ⟨?_, ?_, ?_⟩ <;> simp [applyOp, Timer.tick, hc] <;> omega
    · refine ⟨?_, ?_, ?_⟩ <;> simp [applyOp, Timer.tick, hc]
  | pause => refine ⟨?_, ?_, ?_⟩ <;> simp [applyOp]
  | unpause => refine ⟨?_, ?_, ?_⟩ <;> simp [applyOp]

/-- A sequence of mutating operations never increases `remaining_seconds`,
keeps it non-negative, and never changes `total_seconds`. -/
theorem applyOps_remaining (ops : List TimerOp) : ∀ t : Timer,
    (applyOps t ops).remaining_seconds ≤ t.remaining_seconds
    ∧ (0 ≤ t.remaining_seconds → 0 ≤ (applyOps t ops).remaining_seconds)
    ∧ (applyOps t ops).total_seconds = t.total_seconds := by
  induction ops with
  | nil => intro t; simp [applyOps]
  | cons op rest ih =>
    intro t
    have h1 := applyOp_remaining t op
    have h2 := ih (applyOp t op)
    have heq : applyOps t (op :: rest) = applyOps (applyOp t op) rest := rfl
    rw [heq]
    exact ⟨le_trans h2.1 h1.1, fun h => h2.2.1 (h1.2.1 h), h2.2.2.trans h1.2.2⟩

/-- The countdown loop of an unpaused timer with `n` seconds left runs the
timer down to zero and changes nothing else. -/
theorem run_loop_unpaused (n : Nat) : ∀ t : Timer, t.paused = false →
    t.remaining_seconds = (n : Int) →
    run_loop t = { t with remaining_seconds := 0 } := by
  induction n with
  | zero =>
    intro t hp hr
    rw [run_loop]
    rw [dif_neg (by rw [hr]; simp)]
    cases t
    simp_all
  | succ k ih =>
    intro t hp hr
    rw [run_loop]
    have hc : 0 < t.remaining_seconds ∧ t.paused = false := by
      constructor
      · rw [hr]; positivity
      · exact hp
    rw [dif_pos hc]
    have h2 : (t.tick).1 =
        { t with remaining_seconds := t.remaining_seconds - 1 } := by
      simp [Timer.tick, hc]
    rw [h2]
    have hr2 : ({ t with remaining_seconds := t.remaining_seconds - 1 } :
        Timer).remaining_seconds = (k : Int) := by
      simp only [hr]
      omega
    have := ih { t with remaining_seconds := t.remaining_seconds - 1 }
      (by simp [hp]) hr2
    simpa using this

/-- A full uninterfered `_run_timer` run of an unpaused timer ends with
`remaining_seconds = 0` and invokes `on_complete` exactly once. -/
theorem run_timer_unpaused (n : Nat) (t : Timer) (hp : t.paused = false)
    (hr : t.remaining_seconds = (n : Int)) :
    run_timer t = ({ t with remaining_seconds := 0 }, 1) := by
  rw [run_timer, run_loop_unpaused n t hp hr]
  simp [Timer.is_complete]

/-! The claims. -/

/-- Claim C4: a single `Timer.tick` decrements `remaining_seconds` by
exactly one when it is positive and the timer is not paused, leaves the
timer entirely unchanged when the timer is paused or `remaining_seconds`
is already `≤ 0`, never decrements by more than one, and modifies no field
other than `remaining_seconds`. -/
theorem claim_C4 (t : Timer) :
    ((t.tick).1.remaining_seconds = t.remaining_seconds ∨
     (t.tick).1.remaining_seconds = t.remaining_seconds - 1)
    ∧ (0 < t.remaining_seconds → t.paused = false →
        (t.tick).1 = { t with remaining_seconds := t.remaining_seconds - 1 })
    ∧ (t.paused = true → (t.tick).1 = t)
    ∧ (t.remaining_seconds ≤ 0 → (t.tick).1 = t) := by
  by_cases hc : 0 < t.remaining_seconds ∧ t.paused = false
  · refine ⟨Or.inr (by simp [Timer.tick, hc]),
      fun _ _ => by simp [Timer.tick, hc], ?_, ?_⟩
    · intro hp
      exact absurd hp (by simp [hc.2])
    · intro hr
      exact absurd hc.1 (by omega)
  · have ht : (t.tick).1 = t := by simp [Timer.tick, hc]
    refine ⟨Or.inl (by rw [ht]), ?_, fun _ => ht, fun _ => ht⟩
    intro h1 h2
    exact absurd ⟨h1, h2⟩ hc

/-- Witness for C4 at a concrete running timer. -/
theorem claim_C4_witness :
    (demoTimer.tick).1 =
      { demoTimer with remaining_seconds := demoTimer.remaining_seconds - 1 } :=
  (claim_C4 demoTimer).2.1 (by decide) (by decide)

/-- Claim C3: for a timer created by `add_timer` with non-negative minutes,
after any sequence of mutating manager operations
`0 ≤ remaining_seconds ≤ total_seconds` holds, and `is_complete` is
monotonic: once true it stays true under any further operations. -/
theorem claim_C3 (id title : String) (minutes : Int)
    (todo_id : Option String) (started_at : String) (hm : 0 ≤ minutes)
    (ops extra : List TimerOp) :
    (0 ≤ (applyOps (Timer.create id title minutes todo_id started_at)
            ops).remaining_seconds
     ∧ (applyOps (Timer.create id title minutes todo_id started_at)
            ops).remaining_seconds
        ≤ (applyOps (Timer.create id title minutes todo_id started_at)
            ops).total_seconds)
    ∧ ((applyOps (Timer.create id title minutes todo_id started_at)
          ops).is_complete = true →
       (applyOps (Timer.create id title minutes todo_id started_at)
          (ops ++ extra)).is_complete = true) := by
  set t0 := Timer.create id title minutes todo_id started_at with ht0
  have h0 : 0 ≤ t0.remaining_seconds := by
    rw [ht0]
    show (0 : Int) ≤ minutes * 60
    positivity
  have h := applyOps_remaining ops t0
  constructor
  · refine ⟨h.2.1 h0, ?_⟩
    calc (applyOps t0 ops).remaining_seconds
        ≤ t0.remaining_seconds := h.1
      _ = t0.total_seconds := rfl
      _ = (applyOps t0 ops).total_seconds := h.2.2.symm
  · intro hic
    have happ : applyOps t0 (ops ++ extra)
        = applyOps (applyOps t0 ops) extra := by
      simp [applyOps, List.foldl_append]
    rw [happ]
    have h2 := (applyOps_remaining extra (applyOps t0 ops)).1
    simp only [Timer.is_complete, decide_eq_true_eq] at hic ⊢
    omega

/-- Witness for C3: a fresh one-minute timer ticked once, then paused. -/
theorem claim_C3_witness :
    (0 ≤ (applyOps (Timer.create "abcd1234" "Focus" 1 none "2024-01-01")
            [TimerOp.tick]).remaining_seconds
     ∧ (applyOps (Timer.create "abcd1234" "Focus" 1 none "2024-01-01")
            [TimerOp.tick]).remaining_seconds
        ≤ (applyOps (Timer.create "abcd1234" "Focus" 1 none "2024-01-01")
            [TimerOp.tick]).total_seconds)
    ∧ ((applyOps (Timer.create "abcd1234" "Focus" 1 none "2024-01-01")
          [TimerOp.tick]).is_complete = true →
       (applyOps (Timer.create "abcd1234" "Focus" 1 none "2024-01-01")
          ([TimerOp.tick] ++ [TimerOp.pause])).is_complete = true) :=
  claim_C3 "abcd1234" "Focus" 1 none "2024-01-01" (by norm_num)
    [TimerOp.tick] [TimerOp.pause]

/-- Claim C7 (code bug): loading a file whose content fails JSON decoding
does yield the empty collection, but content that decodes to valid JSON
which is not a list of well-formed todo objects — here `[{"id": "a"}]`,
missing the required `title` — makes `Todo(**data)` raise `TypeError`,
which the `except (json.JSONDecodeError, KeyError)` clause does not catch,
so an exception escapes to the caller instead of an empty collection. -/
theorem claim_C7 :
    Storage.load_todos FileState.invalidJson = Except.ok []
    ∧ Storage.load_todos corruptContent = Except.error PyError.typeError :=
  ⟨rfl, rfl⟩

/-- Claim C8: saving any collection of todos and loading it back reproduces
the same collection field-for-field, including todos with
`completed_at = none`. -/
theorem claim_C8 (todos : List Todo) :
    Storage.load_todos (Storage.save_todos todos) = Except.ok todos := by
  simp [Storage.load_todos, Storage.save_todos, iterItems,
    fromDictAll_map_to_dict]

/-- Claim C9: `clear_completed` removes exactly the completed todos,
returns how many it removed, persists the result, and keeps the pending
todos in their original relative order; on the five fixture todos of which
three are completed it returns 3 and keeps the two pending ones. -/
theorem claim_C9 (m : TodoManager) :
    ((m.clear_completed).1.todos = m.todos.filter (fun t => !t.completed)
     ∧ (m.clear_completed).2 = (m.todos.filter (fun t => t.completed)).length
     ∧ (m.clear_completed).1.stored
        = Storage.save_todos (m.todos.filter (fun t => !t.completed))
     ∧ (m.clear_completed).1.todos.Sublist m.todos)
    ∧ ((TodoManager.mk demoTodos FileState.missing).clear_completed.2 = 3
       ∧ (TodoManager.mk demoTodos
            FileState.missing).clear_completed.1.todos
          = [demoTodo "bbbb2222" false, demoTodo "dddd4444" false]) := by
  constructor
  · refine ⟨rfl, ?_, rfl, List.filter_sublist m.todos⟩
    show m.todos.length - (m.todos.filter (fun t => !t.completed)).length = _
    have := filter_completed_length m.todos
    omega
  · constructor
    · decide
    · decide

/-- Lemma: `completeList` on a list whose first match is `t`: `t` is marked
complete in place and returned. -/
theorem completeList_append (i now : String) (pre : List Todo)
    (t : Todo) (post : List Todo)
    (hpre : ∀ u ∈ pre, todoMatches u i = false)
    (ht : todoMatches t i = true) :
    completeList (pre ++ t :: post) i now
      = some (pre ++ t.mark_complete now :: post, t.mark_complete now) := by
  induction pre with
  | nil => simp [completeList, ht]
  | cons u pre ih =>
    have hu : todoMatches u i = false := hpre u (by simp)
    simp [completeList, hu, ih (fun v hv => hpre v (by simp [hv]))]

/-- Lemma: `completeList` on a list with no match returns `none`. -/
theorem completeList_none (i now : String) (l : List Todo)
    (h : ∀ u ∈ l, todoMatches u i = false) :
    completeList l i now = none := by
  induction l with
  | nil => rfl
  | cons u l ih =>
    simp [completeList, h u (by simp), ih (fun v hv => h v (by simp [hv]))]

/-- Claim C6: `complete` resolves its argument by exact-or-prefix match
against the stored ids, takes the first match in insertion order, marks it
completed, persists the updated collection, returns the updated todo, and
returns not-found exactly when no todo matches. -/
theorem claim_C6 :
    (∀ (m : TodoManager) (i now : String) (pre post : List Todo) (t : Todo),
      m.todos = pre ++ t :: post →
      (∀ u ∈ pre, todoMatches u i = false) →
      todoMatches t i = true →
      m.complete i now =
        ({ todos := pre ++ t.mark_complete now :: post,
           stored :=
             Storage.save_todos (pre ++ t.mark_complete now :: post) },
         some (t.mark_complete now))
        ∧ (t.mark_complete now).completed = true)
    ∧ (∀ (m : TodoManager) (i now : String),
      (∀ u ∈ m.todos, todoMatches u i = false) →
      m.complete i now = (m, none)) := by
  constructor
  · intro m i now pre post t hsplit hpre ht
    refine ⟨?_, rfl⟩
    rw [TodoManager.complete, hsplit, completeList_append i now pre t post hpre ht]
    rfl
  · intro m i now h
    rw [TodoManager.complete, completeList_none i now m.todos h]

/-- Witness for C6: two todos with ids `"abcd1234"` and `"abcd5678"`;
completing with the shared prefix `"abcd"` deterministically completes the
first-inserted one. -/
theorem claim_C6_witness :
    (TodoManager.mk [demoTodo "abcd1234" false, demoTodo "abcd5678" false]
        FileState.missing).complete "abcd" "2024-01-02"
      = ({ todos := [(demoTodo "abcd1234" false).mark_complete "2024-01-02",
                     demoTodo "abcd5678" false],
           stored := Storage.save_todos
             [(demoTodo "abcd1234" false).mark_complete "2024-01-02",
              demoTodo "abcd5678" false] },
         some ((demoTodo "abcd1234" false).mark_complete "2024-01-02"))
    ∧ ((demoTodo "abcd1234" false).mark_complete "2024-01-02").completed
        = true := by
  have h := claim_C6.1
    (TodoManager.mk [demoTodo "abcd1234" false, demoTodo "abcd5678" false]
      FileState.missing)
    "abcd" "2024-01-02" [] [demoTodo "abcd5678" false]
    (demoTodo "abcd1234" false) rfl (by simp) (by decide)
  simpa using h

/-- Claim C10: the empty string prefix-matches every id, so on any
non-empty todo collection `get("")`, `complete("")` and `delete("")` all
target the first-inserted todo, and on any non-empty timer map a lookup by
`""` returns the first-inserted timer — none of them reports not-found. -/
theorem claim_C10 (t : Todo) (rest : List Todo) (fs : FileState)
    (now : String) (k : String) (tm : Timer) (tr : List (String × Timer))
    (tasks : List (String × Nat)) (procs : List (Nat × String × Bool))
    (n : Nat) (r : Bool) :
    (TodoManager.mk (t :: rest) fs).get "" = some t
    ∧ ((TodoManager.mk (t :: rest) fs).complete "" now).2
        = some (t.mark_complete now)
    ∧ ((TodoManager.mk (t :: rest) fs).delete "").2 = true
    ∧ ((TodoManager.mk (t :: rest) fs).delete "").1.todos = rest
    ∧ (TimerManager.mk ((k, tm) :: tr) tasks procs n r).get_timer ""
        = some tm := by
  have hm : todoMatches t "" = true := by
    simp [todoMatches, pyStartswith_empty]
  have hk : timerKeyMatches k "" = true := by
    simp [timerKeyMatches, pyStartswith_empty]
  refine ⟨?_, ?_, ?_, ?_, ?_⟩
  · simp [TodoManager.get, List.find?_cons_of_pos, hm]
  · simp [TodoManager.complete, completeList, hm]
  · simp [TodoManager.delete, deleteList, hm]
  · simp [TodoManager.delete, deleteList, hm, TodoManager.save]
  · rw [TimerManager.get_timer]
    show Option.map (fun kv => kv.2)
      (List.find? (fun kv => timerKeyMatches kv.1 "") ((k, tm) :: tr))
        = some tm
    rw [List.find?_cons]
    simp [hk]

/-- Claim C1 (code bug): with a live countdown task registered for the
timer `"abcd1234"`, `start_timer` called with the exact id returns `False`
as the claim states, and with a non-matching id it returns `False`; but
called with the proper prefix `"abcd"` — which resolves to the same timer —
it returns `True` and spawns a second concurrent countdown task for that
timer, because the guard looks the raw argument up in the tasks dict, whose
keys are full timer ids. -/
theorem claim_C1 :
    demoManager.start_timer "abcd1234" = (demoManager, false)
    ∧ demoManager.start_timer "zzzz9999" = (demoManager, false)
    ∧ (demoManager.start_timer "abcd").2 = true
    ∧ liveTasksFor demoManager "abcd1234" = 1
    ∧ liveTasksFor (demoManager.start_timer "abcd").1 "abcd1234" = 2 := by
  refine ⟨?_, ?_, ?_, ?_, ?_⟩ <;> decide

/-- Claim C2 (amended): a single countdown run of an unpaused timer with a
non-negative number of seconds remaining drives `remaining_seconds` to zero
and invokes `on_complete` exactly once, at that final state; a countdown
run of a paused, not-yet-complete timer invokes `on_complete` zero times. -/
theorem claim_C2 (t : Timer) (n : Nat) (hp : t.paused = false)
    (hr : t.remaining_seconds = (n : Int)) (u : Timer)
    (hu : u.paused = true) (hur : 0 < u.remaining_seconds) :
    run_timer t = ({ t with remaining_seconds := 0 }, 1)
    ∧ (run_timer u).2 = 0 := by
  constructor
  · exact run_timer_unpaused n t hp hr
  · have hl : run_loop u = u := by
      rw [run_loop]
      rw [dif_neg (by simp [hu])]
    rw [run_timer, hl]
    simp [Timer.is_complete]
    omega

/-- Witness for C2: a fresh one-minute timer runs to zero firing
`on_complete` exactly once; the paused demo timer's run fires it zero
times. -/
theorem claim_C2_witness :
    run_timer (Timer.create "f1f1f1f1" "Focus" 1 none "2024-01-01")
      = ({ Timer.create "f1f1f1f1" "Focus" 1 none "2024-01-01" with
            remaining_seconds := 0 }, 1)
    ∧ (run_timer pausedTimer).2 = 0 :=
  claim_C2 (Timer.create "f1f1f1f1" "Focus" 1 none "2024-01-01") 60 rfl
    (by norm_num [Timer.create]) pausedTimer (by decide) (by decide)

/-- Counterexample to C2 as stated: after a completed countdown run of a
fresh one-minute timer (which fires `on_complete` once with
`remaining_seconds = 0`), calling `start_timer` on the manager again — its
previous task being done — returns `True` and spawns a new countdown run,
and that run invokes `on_complete` a second time; `start_all` likewise
spawns a new task for the completed timer. -/
theorem claim_C2_counterexample :
    (run_timer (Timer.create "f1f1f1f1" "Focus" 1 none "2024-01-01")).1
      = completedTimer
    ∧ (run_timer (Timer.create "f1f1f1f1" "Focus" 1 none "2024-01-01")).2 = 1
    ∧ (doneManager.start_timer "f1f1f1f1").2 = true
    ∧ (run_timer completedTimer).2 = 1
    ∧ (doneManager.start_all).procs.length = 2 := by
  have h1 := run_timer_unpaused 60
    (Timer.create "f1f1f1f1" "Focus" 1 none "2024-01-01") rfl
    (by norm_num [Timer.create])
  have h2 := run_timer_unpaused 0 completedTimer rfl rfl
  refine ⟨?_, ?_, ?_, ?_, ?_⟩
  · rw [h1]; decide
  · rw [h1]
  · decide
  · rw [h2]
  · decide

/-- Looking a key up right after `d[k] = v` yields `v`. -/
theorem dictLookup_insert {α : Type} (k : String) (v : α) :
    ∀ d : List (String × α), dictLookup (dictInsert d k v) k = some v := by
  intro d
  induction d with
  | nil =>
    unfold dictInsert
    rw [if_neg (by simp)]
    unfold dictLookup
    rw [List.nil_append, List.find?_cons_of_pos _ (by simp)]
    rfl
  | cons kv d ih =>
    cases hk : (kv.1 == k) with
    | true =>
      have hany : (kv :: d).any (fun kv => kv.1 == k) = true := by
        rw [List.any_cons, hk, Bool.true_or]
      unfold dictInsert
      rw [if_pos hany, List.map_cons, if_pos hk]
      unfold dictLookup
      rw [List.find?_cons_of_pos _ (by simp)]
      rfl
    | false =>
      cases hd : d.any (fun kv => kv.1 == k) with
      | true =>
        have hany : (kv :: d).any (fun kv => kv.1 == k) = true := by
          rw [List.any_cons, hd, Bool.or_true]
        have ih2 : dictLookup
            (d.map (fun kv => if kv.1 == k then (k, v) else kv)) k
              = some v := by
          have h3 := ih
          unfold dictInsert at h3
          rwa [if_pos hd] at h3
        unfold dictInsert
        rw [if_pos hany, List.map_cons, if_neg (by simp [hk])]
        unfold dictLookup at ih2 ⊢
        rw [List.find?_cons_of_neg _ (by simp [hk])]
        exact ih2
      | false =>
        have hany : ¬ ((kv :: d).any (fun kv => kv.1 == k) = true) := by
          rw [List.any_cons, hk, hd]
          simp
        have ih2 : dictLookup (d ++ [(k, v)]) k = some v := by
          have h3 := ih
          unfold dictInsert at h3
          rwa [if_neg (by simp [hd])] at h3
        unfold dictInsert
        rw [if_neg hany, List.cons_append]
        unfold dictLookup at ih2 ⊢
        rw [List.find?_cons_of_neg _ (by simp [hk])]
        exact ih2

/-- A task appended with a fresh pid is found not-done. -/
theorem procDone_append_fresh (n : Nat) (tid : String) :
    ∀ procs : List (Nat × String × Bool), (∀ p ∈ procs, p.1 < n) →
    procDone (procs ++ [(n, tid, false)]) n = false := by
  intro procs h
  induction procs with
  | nil =>
    unfold procDone
    rw [List.nil_append, List.find?_cons_of_pos _ (by simp)]
    rfl
  | cons p procs ih =>
    have hlt := h p (by simp)
    have hp : ¬ ((fun q : Nat × String × Bool => q.1 == n) p = true) := by
      simp only [beq_iff_eq]
      omega
    unfold procDone at ih ⊢
    rw [List.cons_append,
      @List.find?_cons_of_neg _ (fun q : Nat × String × Bool => q.1 == n) p
        (procs ++ [(n, tid, false)]) hp]
    exact ih (fun q hq => h q (by simp [hq]))

/-- Lemma: `start_timer` called with a full timer id (resolving to a timer whose
id is exactly that string) leaves or creates a live countdown task for
that id, without duplicating a live one. -/
theorem start_timer_active (m : TimerManager) (i : String) (t2 : Timer)
    (hget : m.get_timer i = some t2) (ht2 : t2.id = i)
    (hfresh : ∀ p ∈ m.procs, p.1 < m.nextPid) :
    activeTask (m.start_timer i).1 i := by
  unfold TimerManager.start_timer
  rw [hget]
  cases hlk : dictLookup m.tasks i with
  | none =>
    show activeTask (m.spawnTask t2) i
    refine ⟨m.nextPid, ?_, ?_⟩
    · show dictLookup (dictInsert m.tasks t2.id m.nextPid) i = some m.nextPid
      rw [ht2]
      exact dictLookup_insert i m.nextPid m.tasks
    · show procDone (m.procs ++ [(m.nextPid, t2.id, false)]) m.nextPid
          = false
      exact procDone_append_fresh m.nextPid t2.id m.procs hfresh
  | some pid =>
    cases hdone : procDone m.procs pid with
    | false =>
      show activeTask
        ((if procDone m.procs pid = false then (m, false)
          else (m.spawnTask t2, true)) : TimerManager × Bool).1 i
      rw [if_pos hdone]
      exact ⟨pid, hlk, hdone⟩
    | true =>
      show activeTask
        ((if procDone m.procs pid = false then (m, false)
          else (m.spawnTask t2, true)) : TimerManager × Bool).1 i
      rw [if_neg (by simp [hdone])]
      show activeTask (m.spawnTask t2) i
      refine ⟨m.nextPid, ?_, ?_⟩
      · show dictLookup (dictInsert m.tasks t2.id m.nextPid) i
            = some m.nextPid
        rw [ht2]
        exact dictLookup_insert i m.nextPid m.tasks
      · show procDone (m.procs ++ [(m.nextPid, t2.id, false)]) m.nextPid
            = false
        exact procDone_append_fresh m.nextPid t2.id m.procs hfresh

/-- Lemma: `start_timer` never modifies the timers dict. -/
theorem start_timer_timers (m : TimerManager) (i : String) :
    (m.start_timer i).1.timers = m.timers := by
  unfold TimerManager.start_timer
  cases hg : m.get_timer i with
  | none => rfl
  | some timer =>
    cases hlk : dictLookup m.tasks i with
    | none => rfl
    | some pid =>
      show ((if procDone m.procs pid = false then (m, false)
        else (m.spawnTask timer, true)) : TimerManager × Bool).1.timers
          = m.timers
      split
      · rfl
      · rfl

/-- Lemma: when a live (not done) task is registered under the looked-up
key, `start_timer` is a no-op returning `False` — no duplicate task. -/
theorem start_timer_guard (m : TimerManager) (i : String) (pid : Nat)
    (hlk : dictLookup m.tasks i = some pid)
    (hdone : procDone m.procs pid = false) :
    m.start_timer i = (m, false) := by
  unfold TimerManager.start_timer
  cases hg : m.get_timer i with
  | none => rfl
  | some timer =>
    rw [hlk]
    show ((if procDone m.procs pid = false then (m, false)
      else (m.spawnTask timer, true)) : TimerManager × Bool) = (m, false)
    rw [if_pos hdone]

/-- Claim C5 (amended): `resume_timer` returns `True` exactly when some
timer matches the id (exactly or by prefix) and that timer's `paused` flag
is set; in that case it clears the flag — looking the timer up in the
resulting manager yields it with `paused = false` — and ensures a live
countdown task for the timer exists, idempotently: when a live task is
already registered for the timer, the tasks dict and the task log are left
unchanged (no duplicate is spawned), since `start_timer` is called with the
full id. It returns `False`, changing nothing, both when no timer matches
and when the matched timer is not paused. The side conditions of the
fourth part say the manager is well-formed: timers are keyed by their own
ids, no key has the matched timer's id as a proper prefix, and logged pids
are below `nextPid`. -/
theorem claim_C5 :
    (∀ (m : TimerManager) (i : String),
      m.get_timer i = none → m.resume_timer i = (m, false))
    ∧ (∀ (m : TimerManager) (i : String) (t : Timer),
      m.get_timer i = some t → t.paused = false →
      m.resume_timer i = (m, false))
    ∧ (∀ (m : TimerManager) (i : String) (t : Timer),
      m.get_timer i = some t → t.paused = true →
      (m.resume_timer i).2 = true)
    ∧ (∀ (m : TimerManager) (i : String) (t : Timer),
      m.get_timer i = some t → t.paused = true →
      (∀ kv ∈ m.timers, kv.1 = kv.2.id) →
      (∀ kv ∈ m.timers, timerKeyMatches kv.1 t.id = true → kv.1 = t.id) →
      (∀ p ∈ m.procs, p.1 < m.nextPid) →
      activeTask (m.resume_timer i).1 t.id
      ∧ (m.resume_timer i).1.get_timer t.id
          = some { t with paused := false })
    ∧ (∀ (m : TimerManager) (i : String) (t : Timer),
      m.get_timer i = some t → t.paused = true →
      activeTask m t.id →
      (m.resume_timer i).1.tasks = m.tasks
      ∧ (m.resume_timer i).1.procs = m.procs) := by
  refine ⟨?_, ?_, ?_, ?_, ?_⟩
  · intro m i h
    unfold TimerManager.resume_timer
    rw [h]
  · intro m i t hg hp
    unfold TimerManager.resume_timer
    rw [hg]
    show (if t.paused = true then
        ((({ m with timers := setPausedInTimers m.timers t.id false }
            : TimerManager).start_timer t.id).1, true)
      else (m, false)) = (m, false)
    rw [if_neg (by simp [hp])]
  · intro m i t hg hp
    unfold TimerManager.resume_timer
    rw [hg]
    show ((if t.paused = true then
        ((({ m with timers := setPausedInTimers m.timers t.id false }
            : TimerManager).start_timer t.id).1, true)
      else (m, false)) : TimerManager × Bool).2 = true
    rw [if_pos hp]
  · intro m i t hg hp hkeys hpre hfresh
    have hres : m.resume_timer i
        = ((({ m with timers := setPausedInTimers m.timers t.id false }
              : TimerManager).start_timer t.id).1, true) := by
      unfold TimerManager.resume_timer
      rw [hg]
      show (if t.paused = true then
          ((({ m with timers := setPausedInTimers m.timers t.id false }
              : TimerManager).start_timer t.id).1, true)
        else (m, false)) = _
      rw [if_pos hp]
    have hg' : (m.timers.find? (fun kv => timerKeyMatches kv.1 i)).map
        (fun kv => kv.2) = some t := hg
    obtain ⟨kv, hfind, hkv2⟩ := Option.map_eq_some'.mp hg'
    have hkvmem := List.mem_of_find?_eq_some hfind
    have hkey : kv.1 = t.id := by rw [hkeys kv hkvmem, hkv2]
    have hkveq : kv = (t.id, t) := by
      cases kv with
      | mk a b => simp_all
    have hpkv : timerKeyMatches t.id i = true := by
      have h4 := List.find?_some hfind
      rw [hkveq] at h4
      simpa using h4
    obtain ⟨-, as, bs, hsplit, has⟩ := List.find?_eq_some.mp hfind
    have hallfail : ∀ a' ∈ as.map (fun kv : String × Timer =>
        if kv.1 == t.id then (kv.1, { kv.2 with paused := false }) else kv),
        timerKeyMatches a'.1 t.id = false := by
      intro a' ha'
      obtain ⟨a, ha, hfa⟩ := List.mem_map.mp ha'
      have hkeyeq : a'.1 = a.1 := by
        rw [← hfa]
        split
        · rfl
        · rfl
      cases hq : timerKeyMatches a'.1 t.id with
      | false => rfl
      | true =>
        exfalso
        have hamem : a ∈ m.timers := by
          rw [hsplit]
          exact List.mem_append.mpr (Or.inl ha)
        have hat : a.1 = t.id := hpre a hamem (by rw [← hkeyeq]; exact hq)
        have h5 := has a ha
        have hpa : timerKeyMatches a.1 i = false := by
          cases hqa : timerKeyMatches a.1 i with
          | false => rfl
          | true => simp [hqa] at h5
        have hcontra : timerKeyMatches t.id i = false := by
          rw [← hat]
          exact hpa
        rw [hpkv] at hcontra
        simp at hcontra
    have hm1timers : setPausedInTimers m.timers t.id false
        = as.map (fun kv : String × Timer =>
            if kv.1 == t.id then (kv.1, { kv.2 with paused := false })
            else kv)
          ++ (t.id, { t with paused := false })
          :: bs.map (fun kv : String × Timer =>
            if kv.1 == t.id then (kv.1, { kv.2 with paused := false })
            else kv) := by
      unfold setPausedInTimers
      rw [hsplit, List.map_append, List.map_cons, hkveq]
      simp
    have hnone : List.find? (fun kv : String × Timer =>
        timerKeyMatches kv.1 t.id)
        (as.map (fun kv : String × Timer =>
          if kv.1 == t.id then (kv.1, { kv.2 with paused := false })
          else kv)) = none :=
      List.find?_eq_none.mpr (fun x hx => by simp [hallfail x hx])
    have hfind1 : List.find? (fun kv => timerKeyMatches kv.1 t.id)
        (setPausedInTimers m.timers t.id false)
          = some (t.id, { t with paused := false }) := by
      rw [hm1timers, List.find?_append, hnone, Option.none_or]
      rw [List.find?_cons_of_pos _ (by simp [timerKeyMatches])]
    have hget1 : ({ m with timers := setPausedInTimers m.timers t.id false }
        : TimerManager).get_timer t.id
          = some { t with paused := false } := by
      show (List.find? (fun kv => timerKeyMatches kv.1 t.id)
        (setPausedInTimers m.timers t.id false)).map (fun kv => kv.2)
          = some { t with paused := false }
      rw [hfind1]
      rfl
    constructor
    · rw [hres]
      exact start_timer_active _ t.id { t with paused := false } hget1 rfl
        hfresh
    · rw [hres]
      have htim : ((({ m with
          timers := setPausedInTimers m.timers t.id false }
            : TimerManager).start_timer t.id).1).timers
          = setPausedInTimers m.timers t.id false :=
        start_timer_timers _ t.id
      show (List.find? (fun kv => timerKeyMatches kv.1 t.id)
        (((({ m with timers := setPausedInTimers m.timers t.id false }
            : TimerManager).start_timer t.id).1).timers)).map
          (fun kv => kv.2)
          = some { t with paused := false }
      rw [htim, hfind1]
      rfl
  · intro m i t hg hp hact
    obtain ⟨pid, hlk, hdone⟩ := hact
    have hres : m.resume_timer i
        = ((({ m with timers := setPausedInTimers m.timers t.id false }
              : TimerManager).start_timer t.id).1, true) := by
      unfold TimerManager.resume_timer
      rw [hg]
      show (if t.paused = true then
          ((({ m with timers := setPausedInTimers m.timers t.id false }
              : TimerManager).start_timer t.id).1, true)
        else (m, false)) = _
      rw [if_pos hp]
    have hguard : ({ m with timers := setPausedInTimers m.timers t.id false }
        : TimerManager).start_timer t.id
          = (({ m with timers := setPausedInTimers m.timers t.id false }
              : TimerManager), false) :=
      start_timer_guard _ t.id pid hlk hdone
    rw [hres, hguard]
    exact ⟨rfl, rfl⟩

/-- Witness for C5: resuming the paused timer `"abcd1234"` through the
prefix `"abcd"` leaves a live countdown task registered for it and the
timer unpaused in the resulting manager; resuming it when a live task
already exists spawns nothing — the tasks dict and the task log are
unchanged. -/
theorem claim_C5_witness :
    activeTask (pausedManager.resume_timer "abcd").1 "abcd1234"
    ∧ (pausedManager.resume_timer "abcd").1.get_timer "abcd1234"
        = some { pausedTimer with paused := false }
    ∧ (pausedBusyManager.resume_timer "abcd").1.tasks
        = pausedBusyManager.tasks
    ∧ (pausedBusyManager.resume_timer "abcd").1.procs
        = pausedBusyManager.procs := by
  have h4 := claim_C5.2.2.2.1 pausedManager "abcd" pausedTimer (by decide)
    (by decide) (by decide) (by decide) (by decide)
  have h5 := claim_C5.2.2.2.2 pausedBusyManager "abcd" pausedTimer
    (by decide) (by decide) ⟨0, rfl, rfl⟩
  exact ⟨h4.1, h4.2, h5.1, h5.2⟩

/-- Counterexample to C5 as stated: the timer `"abcd1234"` is matched by
its exact id but is not paused, and `resume_timer` returns `False` for it —
the claim says `resume_timer` succeeds on every matched timer and returns
`False` only when no timer matches. -/
theorem claim_C5_counterexample :
    demoManager.get_timer "abcd1234" = some demoTimer
    ∧ demoTimer.paused = false
    ∧ demoManager.resume_timer "abcd1234" = (demoManager, false) := by
  refine ⟨?_, ?_, ?_⟩ <;> decide

end Pomodoro
